import Mathlib

/-!
Verification development for the HowAboutNo request-filtering middleware
(`src/howboutno/main.py`, `src/howaboutno/model.py`).

The Python code is shallowly embedded: pydantic config models become Lean
structures, the per-request `HowBoutNo.__call__` coroutine becomes a pure
function from (state, request scope, current time, upstream oracle response)
to (emitted outcome, new state), and Python runtime exceptions become an
explicit `PyExc` error value threaded through `Except`.

Time is modelled at whole-second granularity (`Nat`); the source uses float
epoch seconds from `time.time()`, and every comparison in the source is an
order comparison, so nothing here depends on sub-second precision.  All the
`time.time()` calls inside one request are modelled by a single `now` value.
-/

namespace HowAboutNo

/-- Python runtime exceptions that the embedded code can raise.  `typeError`
also stands for `AttributeError` (both are raised by applying an operation to
a value of the wrong dynamic type). -/
inductive PyExc where
  | valueError
  | typeError
  | keyError (k : String)
  | jsonDecodeError
deriving DecidableEq, Repr

/-- JSON values, the dynamic data manipulated by the middleware (payloads from
ip-api.com, cached response bodies, configured response bodies).  Python
`None` is `Json.null`.  Floating point JSON numbers are not modelled; no value
handled by this program is fractional. -/
inductive Json where
  | null
  | bool (b : Bool)
  | int (n : Int)
  | str (s : String)
  | arr (xs : List Json)
  | obj (kvs : List (String × Json))
deriving Repr

/-- Python subscripting `d[k]` on a JSON value: `KeyError` when the key is
absent from a dict, `TypeError` when the value is not a dict (in particular
`None[k]` raises `TypeError`). -/
def jget (j : Json) (k : String) : Except PyExc Json :=
  match j with
  | .obj kvs =>
    match kvs.lookup k with
    | some v => .ok v
    | none => .error (.keyError k)
  | _ => .error .typeError

/-- Python truthiness of a JSON value (`bool(x)`). -/
def truthy : Json → Bool
  | .null => false
  | .bool b => b
  | .int n => n != 0
  | .str s => s != ""
  | .arr xs => !xs.isEmpty
  | .obj kvs => !kvs.isEmpty

/-- Python equality of a JSON value with a string: `x == s` is `True` exactly
when `x` is the equal string; comparisons across types are `False`. -/
def jeq_str (j : Json) (s : String) : Bool :=
  match j with
  | .str t => t == s
  | _ => false

/-- Python membership `x in l` where `l` is a list of strings: only a string
value can compare equal to an element. -/
def jmem_str (j : Json) (l : List String) : Bool :=
  match j with
  | .str s => l.contains s
  | _ => false

/-- Python membership `x in l` where `l` is a list of ints.  `True == 1` and
`False == 0` hold in Python, so booleans participate. -/
def jmem_int (j : Json) (l : List Int) : Bool :=
  match j with
  | .int n => l.contains n
  | .bool b => l.contains (if b then 1 else 0)
  | _ => false

/-- Character constants written by code point to keep the embedding free of
quote-heavy literals. -/
def chQuote : Char := Char.ofNat 34

def chBackslash : Char := Char.ofNat 92

def chLBrace : Char := Char.ofNat 123

def chRBrace : Char := Char.ofNat 125

def chLBrack : Char := Char.ofNat 91

def chRBrack : Char := Char.ofNat 93

def chColon : Char := Char.ofNat 58

def chComma : Char := Char.ofNat 44

def chMinus : Char := Char.ofNat 45

/-- Whitespace skipping for the JSON reader. -/
def skip_ws : List Char → List Char
  | [] => []
  | c :: cs =>
    if c = ' ' ∨ c = Char.ofNat 9 ∨ c = Char.ofNat 10 ∨ c = Char.ofNat 13 then skip_ws cs
    else c :: cs

/-- Literal matching for the JSON reader: strip an expected character list. -/
def strip_lit : List Char → List Char → Option (List Char)
  | [], cs => some cs
  | _ :: _, [] => none
  | p :: ps, c :: cs => if c = p then strip_lit ps cs else none

/-- Hexadecimal digit value, for JSON string escapes. -/
def hex_val (c : Char) : Option Nat :=
  if c.isDigit then some (c.toNat - 48)
  else if 97 ≤ c.toNat ∧ c.toNat ≤ 102 then some (c.toNat - 87)
  else if 65 ≤ c.toNat ∧ c.toNat ≤ 70 then some (c.toNat - 55)
  else none

/-- String body reader, called after the opening quote; returns the decoded
characters and the input following the closing quote. -/
def pj_string (fuel : Nat) (cs : List Char) : Option (List Char × List Char) :=
  match fuel with
  | 0 => none
  | fuel + 1 =>
    match cs with
    | [] => none
    | c :: rest =>
      if c = chQuote then some ([], rest)
      else if c = chBackslash then
        match rest with
        | [] => none
        | e :: rest2 =>
          let dec : Option (Char × List Char) :=
            if e = chQuote then some (chQuote, rest2)
            else if e = chBackslash then some (chBackslash, rest2)
            else if e = Char.ofNat 47 then some (Char.ofNat 47, rest2)
            else if e = Char.ofNat 98 then some (Char.ofNat 8, rest2)
            else if e = Char.ofNat 102 then some (Char.ofNat 12, rest2)
            else if e = Char.ofNat 110 then some (Char.ofNat 10, rest2)
            else if e = Char.ofNat 114 then some (Char.ofNat 13, rest2)
            else if e = Char.ofNat 116 then some (Char.ofNat 9, rest2)
            else if e = Char.ofNat 117 then
              match rest2 with
              | h1 :: h2 :: h3 :: h4 :: rest3 =>
                match hex_val h1, hex_val h2, hex_val h3, hex_val h4 with
                | some a, some b, some c3, some d =>
                  some (Char.ofNat (((a * 16 + b) * 16 + c3) * 16 + d), rest3)
                | _, _, _, _ => none
              | _ => none
            else none
          match dec with
          | none => none
          | some (ch, rest2) =>
            match pj_string fuel rest2 with
            | some (tail, rem) => some (ch :: tail, rem)
            | none => none
      else
        match pj_string fuel rest with
        | some (tail, rem) => some (c :: tail, rem)
        | none => none

/-- Integer literal reader for the JSON reader (sign and digits only). -/
def pj_int (cs : List Char) : Option (Int × List Char) :=
  let (neg, body) :=
    match cs with
    | c :: rest => if c = chMinus then (true, rest) else (false, cs)
    | [] => (false, cs)
  let ds := body.takeWhile Char.isDigit
  let rest := body.dropWhile Char.isDigit
  if ds.isEmpty then none
  else
    let v : Nat := ds.foldl (fun acc ch => acc * 10 + (ch.toNat - 48)) 0
    match rest with
    | c :: _ =>
      if c = Char.ofNat 46 ∨ c = Char.ofNat 101 ∨ c = Char.ofNat 69 then none
      else some (if neg then -(v : Int) else (v : Int), rest)
    | [] => some (if neg then -(v : Int) else (v : Int), rest)

mutual

/-- Recursive-descent JSON value reader, a model of the grammar accepted by
Python `json.loads` (floating point literals excluded, see `Json`). -/
def pj_val (fuel : Nat) (cs : List Char) : Option (Json × List Char) :=
  match fuel with
  | 0 => none
  | fuel + 1 =>
    match skip_ws cs with
    | [] => none
    | c :: rest =>
      if c = chLBrace then
        match skip_ws rest with
        | d :: rest2 =>
          if d = chRBrace then some (.obj [], rest2)
          else pj_members fuel (d :: rest2) []
        | [] => none
      else if c = chLBrack then
        match skip_ws rest with
        | d :: rest2 =>
          if d = chRBrack then some (.arr [], rest2)
          else pj_elems fuel (d :: rest2) []
        | [] => none
      else if c = chQuote then
        match pj_string fuel rest with
        | some (body, rem) => some (.str (String.mk body), rem)
        | none => none
      else if c = Char.ofNat 116 then
        match strip_lit (String.toList "rue") rest with
        | some rem => some (.bool true, rem)
        | none => none
      else if c = Char.ofNat 102 then
        match strip_lit (String.toList "alse") rest with
        | some rem => some (.bool false, rem)
        | none => none
      else if c = Char.ofNat 110 then
        match strip_lit (String.toList "ull") rest with
        | some rem => some (.null, rem)
        | none => none
      else
        match pj_int (c :: rest) with
        | some (n, rem) => some (.int n, rem)
        | none => none

/-- Object member list reader (after the opening brace, first key pending). -/
def pj_members (fuel : Nat) (cs : List Char) (acc : List (String × Json)) :
    Option (Json × List Char) :=
  match fuel with
  | 0 => none
  | fuel + 1 =>
    match skip_ws cs with
    | c :: rest =>
      if c = chQuote then
        match pj_string fuel rest with
        | some (key, rem) =>
          match skip_ws rem with
          | d :: rem2 =>
            if d = chColon then
              match pj_val fuel rem2 with
              | some (v, rem3) =>
                match skip_ws rem3 with
                | e :: rem4 =>
                  if e = chComma then
                    pj_members fuel rem4 (acc ++ [(String.mk key, v)])
                  else if e = chRBrace then
                    some (.obj (acc ++ [(String.mk key, v)]), rem4)
                  else none
                | [] => none
              | none => none
            else none
          | [] => none
        | none => none
      else none
    | [] => none

/-- Array element list reader (after the opening bracket, first value pending). -/
def pj_elems (fuel : Nat) (cs : List Char) (acc : List Json) :
    Option (Json × List Char) :=
  match fuel with
  | 0 => none
  | fuel + 1 =>
    match pj_val fuel cs with
    | some (v, rem) =>
      match skip_ws rem with
      | e :: rem2 =>
        if e = chComma then pj_elems fuel rem2 (acc ++ [v])
        else if e = chRBrack then some (.arr (acc ++ [v]), rem2)
        else none
      | [] => none
    | none => none

end

/-- Model of Python `json.loads`: parse a full JSON document, reject trailing
garbage.  Returns `none` where Python raises `json.JSONDecodeError`. -/
def json_loads (s : String) : Option Json :=
  match pj_val (s.length + 1) s.toList with
  | some (v, rem) => if (skip_ws rem).isEmpty then some v else none
  | none => none

/-- Four-digit lowercase hex rendering, for `json.dumps` escapes. -/
def hex4 (n : Nat) : String :=
  let dig := fun (d : Nat) => String.mk [if d < 10 then Char.ofNat (48 + d) else Char.ofNat (87 + d)]
  dig (n / 4096 % 16) ++ dig (n / 256 % 16) ++ dig (n / 16 % 16) ++ dig (n % 16)

/-- Escaping of one character inside a JSON string, mirroring Python
`json.dumps` with its default `ensure_ascii=True`. -/
def escape_json_char (c : Char) : String :=
  if c = chQuote then String.mk [chBackslash, chQuote]
  else if c = chBackslash then String.mk [chBackslash, chBackslash]
  else if c = Char.ofNat 10 then String.mk [chBackslash, Char.ofNat 110]
  else if c = Char.ofNat 9 then String.mk [chBackslash, Char.ofNat 116]
  else if c = Char.ofNat 13 then String.mk [chBackslash, Char.ofNat 114]
  else if c = Char.ofNat 8 then String.mk [chBackslash, Char.ofNat 98]
  else if c = Char.ofNat 12 then String.mk [chBackslash, Char.ofNat 102]
  else if c.toNat < 32 ∨ c.toNat > 126 then
    String.mk [chBackslash, Char.ofNat 117] ++ hex4 (c.toNat % 65536)
  else String.mk [c]

/-- Quoting of a whole string for `json.dumps`. -/
def json_quote (s : String) : String :=
  String.mk [chQuote] ++ String.join (s.toList.map escape_json_char) ++ String.mk [chQuote]

mutual

/-- Model of Python `json.dumps` with default separators: `", "` between
items and `": "` after keys. -/
def json_dumps : Json → String
  | .null => "null"
  | .bool true => "true"
  | .bool false => "false"
  | .int n => toString n
  | .str s => json_quote s
  | .arr xs => String.mk [chLBrack] ++ json_dumps_elems xs ++ String.mk [chRBrack]
  | .obj kvs => String.mk [chLBrace] ++ json_dumps_members kvs ++ String.mk [chRBrace]

/-- Comma-joined array elements for `json_dumps`. -/
def json_dumps_elems : List Json → String
  | [] => ""
  | [x] => json_dumps x
  | x :: y :: rest => json_dumps x ++ ", " ++ json_dumps_elems (y :: rest)

/-- Comma-joined object members for `json_dumps`. -/
def json_dumps_members : List (String × Json) → String
  | [] => ""
  | [(k, v)] => json_quote k ++ ": " ++ json_dumps v
  | (k, v) :: m :: rest => json_quote k ++ ": " ++ json_dumps v ++ ", " ++ json_dumps_members (m :: rest)

end

/-- Python whitespace, as recognized by `str.strip` (the ASCII part). -/
def py_isspace (c : Char) : Bool :=
  c = ' ' ∨ c = Char.ofNat 9 ∨ c = Char.ofNat 10 ∨ c = Char.ofNat 13 ∨
    c = Char.ofNat 11 ∨ c = Char.ofNat 12

/-- Model of Python `str.strip()`: drop whitespace from both ends. -/
def py_strip (s : String) : String :=
  String.mk (((s.toList.dropWhile py_isspace).reverse.dropWhile py_isspace).reverse)

/-- Model of Python `str.upper()` on the ASCII strings this program
handles. -/
def py_upper (s : String) : String :=
  String.mk (s.toList.map Char.toUpper)

/-- Model of Python `str.lower()` on the ASCII strings this program
handles. -/
def py_lower (s : String) : String :=
  String.mk (s.toList.map Char.toLower)

/-- Splitting worker: cut the input at every occurrence of the (nonempty)
separator. -/
def py_split_aux (sep : List Char) (cs : List Char) (cur : List Char) :
    Nat → List String
  | 0 => [String.mk cur.reverse]
  | fuel + 1 =>
    match cs with
    | [] => [String.mk cur.reverse]
    | c :: rest =>
      match strip_lit sep (c :: rest) with
      | some rem => String.mk cur.reverse :: py_split_aux sep rem [] fuel
      | none => py_split_aux sep rest (c :: cur) fuel

/-- Model of Python `str.split(sep)` with an explicit separator. -/
def py_split (s sep : String) : List String :=
  py_split_aux sep.toList s.toList [] (s.toList.length + 1)

/-- Model of the Python slice `s[n:]`. -/
def py_drop (s : String) (n : Nat) : String :=
  String.mk (s.toList.drop n)

/-- Model of Python `int(s)` on a string argument: optional surrounding
whitespace, optional sign, one or more decimal digits; anything else raises
`ValueError`.  (Underscore digit separators, accepted by CPython, are not
modelled; no input of this program contains them.) -/
def pyInt (s : String) : Except PyExc Int :=
  match (py_strip s).toList with
  | [] => .error .valueError
  | c :: rest =>
    let (neg, ds) :=
      if c = chMinus then (true, rest)
      else if c = Char.ofNat 43 then (false, rest)
      else (false, c :: rest)
    if ds.isEmpty ∨ ¬ ds.all Char.isDigit then .error .valueError
    else
      let v : Nat := ds.foldl (fun acc ch => acc * 10 + (ch.toNat - 48)) 0
      .ok (if neg then -(v : Int) else (v : Int))

/-! ### Model of `src/howaboutno/model.py` (pydantic config models) -/

/-- Configured denial response: `response_model_` from model.py.  The
`status_code` field is an `HTTPStatus` in the source; only its integer value
is observable. -/
structure response_model_ where
  response : String
  status_code : Nat
  return_as : String
deriving DecidableEq, Repr

/-- One emitted HTTP response: status, headers, body text (the source sends
the UTF-8 encoding of the body string). -/
structure HttpResponse where
  status : Nat
  headers : List (String × String)
  body : String
deriving DecidableEq, Repr

/-- Model of `response_model_.validate_return_type` (model.py lines 12-22):
normalize `return_as` by trim and uppercase and require it to be one of JSON,
HTML, TEXT; the response body string is not inspected here. -/
def response_model_.validate_return_type (m : response_model_) : Except String response_model_ :=
  let ra := py_upper (py_strip m.return_as)
  if ra = "JSON" ∨ ra = "HTML" ∨ ra = "TEXT" then .ok { m with return_as := ra }
  else .error "return_as must be either JSON, HTML or TEXT."

/-- Model of `response_model_.get_response_obj` (model.py lines 24-95).  The
source builds a callable that writes one response-start event and one body
event; here the written response itself is returned.  For JSON the body is
parsed with `json.loads` (raising `JSONDecodeError` on invalid JSON, at the
time `get_response_obj` is called) and re-serialized with `json.dumps`.  A
`return_as` outside the three known kinds makes the source return `None`,
which the caller then awaits, raising `TypeError`. -/
def response_model_.get_response_obj (m : response_model_) : Except PyExc HttpResponse :=
  if m.return_as = "JSON" then
    match json_loads m.response with
    | none => .error .jsonDecodeError
    | some d => .ok ⟨m.status_code, [("content-type", "application/json")], json_dumps d⟩
  else if m.return_as = "HTML" then
    .ok ⟨m.status_code, [("content-type", "text/html")], m.response⟩
  else if m.return_as = "TEXT" then
    .ok ⟨m.status_code, [("content-type", "text/plain")], m.response⟩
  else .error .typeError

/-- Default Forbidden response spec used for every per-category default in
`response_` (model.py lines 144-189). -/
def default_forbidden : response_model_ :=
  ⟨"\x7b\"detail\": \"Forbidden\"\x7d", 403, "JSON"⟩

/-- Model of `block_ip_` (model.py lines 97-103).  After validation the list
holds canonicalized addresses (the field type `list[IPvAnyAddress]` makes
pydantic coerce the validator output strings back into address objects; the
textual canonical form is kept here, which is faithful for every use the
middleware makes of the field). -/
structure block_ip_ where
  block_ip : List String
deriving DecidableEq, Repr

/-- Model of `block_continent_` (model.py lines 105-111): upper-cased trimmed
codes. -/
structure block_continent_ where
  block_continent : List String
deriving DecidableEq, Repr

/-- Model of `block_country_` (model.py lines 113-119). -/
structure block_country_ where
  block_country : List String
deriving DecidableEq, Repr

/-- Model of `block_asn_` (model.py lines 121-122). -/
structure block_asn_ where
  block_asn : List Int
deriving DecidableEq, Repr

/-- Model of `block_rdns_hostname_` (model.py lines 124-130): lower-cased
trimmed hostnames. -/
structure block_rdns_hostname_ where
  block_rdns_hostname : List String
deriving DecidableEq, Repr

/-- Model of `block_bad_ip_` (model.py lines 132-134). -/
structure block_bad_ip_ where
  block_inbound_bad_ip : Bool
  block_outbound_bad_ip : Bool
deriving DecidableEq, Repr

/-- Model of `allow_hosting_` (model.py lines 136-137). -/
structure allow_hosting_ where
  allow_hosting : Bool
deriving DecidableEq, Repr

/-- Model of `allow_proxy_` (model.py lines 139-140). -/
structure allow_proxy_ where
  allow_proxy : Bool
deriving DecidableEq, Repr

/-- Model of `response_` (model.py lines 142-189): optional `all` override
plus per-category specs, each defaulting to the Forbidden JSON spec. -/
structure response_ where
  all : Option response_model_
  ip : response_model_
  continent : response_model_
  country : response_model_
  asn : response_model_
  rdns_hostname : response_model_
  bad_ip : response_model_
  hosting : response_model_
  proxy : response_model_
deriving DecidableEq, Repr

/-- Default `response_` value (all per-category specs Forbidden, no `all`). -/
def default_response_ : response_ :=
  ⟨none, default_forbidden, default_forbidden, default_forbidden, default_forbidden,
    default_forbidden, default_forbidden, default_forbidden, default_forbidden⟩

/-- Model of `exception_path_` (model.py lines 191-197): trimmed paths. -/
structure exception_path_ where
  exception_path : List String
deriving DecidableEq, Repr

/-- Model of `cache_` (model.py lines 199-202). -/
structure cache_ where
  size : Nat
  invalidate_success_after : Nat
  invalidate_error_after : Nat
deriving DecidableEq, Repr

/-- Model of `exception_ip_` (model.py lines 204-210).  The declared field
type is a bare `list`, so the canonical strings produced by the validator are
kept as strings (unlike `block_ip_`, no coercion happens). -/
structure exception_ip_ where
  exception_ip : List String
deriving DecidableEq, Repr

/-- Model of `disable_logging_` (model.py lines 212-213). -/
structure disable_logging_ where
  disable_logging : Bool
deriving DecidableEq, Repr

/-- Model of `config_` (model.py lines 216-229). -/
structure config_ where
  block_ip : block_ip_
  block_bad_ip : block_bad_ip_
  block_continent : block_continent_
  block_country : block_country_
  block_asn : block_asn_
  block_rdns_hostname : block_rdns_hostname_
  allow_hosting : allow_hosting_
  allow_proxy : allow_proxy_
  exception_ip : exception_ip_
  exception_path : exception_path_
  response : response_
  cache : cache_
  disable_logging : disable_logging_
deriving DecidableEq, Repr

/-- Default configuration (every section missing from the TOML file). -/
def default_config_ : config_ :=
  ⟨⟨[]⟩, ⟨false, false⟩, ⟨[]⟩, ⟨[]⟩, ⟨[]⟩, ⟨[]⟩, ⟨true⟩, ⟨true⟩, ⟨[]⟩, ⟨[]⟩,
    default_response_, ⟨512, 604800, 3600⟩, ⟨false⟩⟩

/-! ### Python membership tests against pydantic model objects

main.py line 62 evaluates `ip in self.config.block_ip` and lines 198-311
evaluate `path not in self.config.exception_path`.  In both places the right
operand is the pydantic `BaseModel` instance itself, not the list stored
inside it.  A pydantic `BaseModel` defines no `__contains__`, so the `in`
operator falls back to iteration; `BaseModel.__iter__` yields the
`(field_name, field_value)` pairs.  The left operand is a `str`, and in
Python the comparison of a `str` with a `tuple` is `False` (both sides return
`NotImplemented`, and the fallback identity comparison fails), so the
membership test never succeeds. -/

/-- Python equality between a string and a (field-name, field-value) pair:
always `False`, since the types differ. -/
def py_str_eq_pair (_x : String) (_p : String × List String) : Bool := false

/-- Model of the expression `ip in self.config.block_ip` (main.py line 62):
membership via iteration of the model object. -/
def py_in_block_ip_model (ip : String) (m : block_ip_) : Bool :=
  [("block_ip", m.block_ip)].any (fun p => py_str_eq_pair ip p)

/-- Model of the expression `path in self.config.exception_path` (main.py
lines 198-311): membership via iteration of the model object. -/
def py_in_exception_path_model (path : String) (m : exception_path_) : Bool :=
  [("exception_path", m.exception_path)].any (fun p => py_str_eq_pair path p)

/-! ### Model of `ipaddress.ip_address`

Only IPv4 literals are modelled (the claims under verification all concern
IPv4 clients; CPython additionally accepts IPv6 literals).  CPython rejects
empty octets, non-digit characters, leading zeros, and values above 255. -/

/-- Canonical parsed address together with the classification bits the
middleware reads. -/
structure IpAddr where
  canonical : String
  is_private : Bool
  is_reserved : Bool
deriving DecidableEq, Repr

/-- Octet reader for `ip_address`: decimal digits only, no leading zero, at
most the value 255. -/
def parse_octet (s : String) : Option Nat :=
  match s.toList with
  | [] => none
  | c :: rest =>
    if ¬ (c :: rest).all Char.isDigit then none
    else if ¬ rest.isEmpty ∧ c = Char.ofNat 48 then none
    else
      let v : Nat := (c :: rest).foldl (fun acc ch => acc * 10 + (ch.toNat - 48)) 0
      if v ≤ 255 then some v else none

/-- Membership of a dotted quad in the CPython `IPv4Address._private_networks`
list (0.0.0.0/8, 10.0.0.0/8, 127.0.0.0/8, 169.254.0.0/16, 172.16.0.0/12,
192.0.0.0/29, 192.0.0.170/31, 192.0.2.0/24, 192.168.0.0/16, 198.18.0.0/15,
198.51.100.0/24, 203.0.113.0/24, 240.0.0.0/4, 255.255.255.255/32). -/
def ipv4_is_private (a b c d : Nat) : Bool :=
  (a == 0) || (a == 10) || (a == 127) || (a == 169 && b == 254) ||
  (a == 172 && decide (16 ≤ b) && decide (b ≤ 31)) ||
  (a == 192 && b == 0 && c == 0 && decide (d ≤ 7)) ||
  (a == 192 && b == 0 && c == 0 && (d == 170 || d == 171)) ||
  (a == 192 && b == 0 && c == 2) || (a == 192 && b == 168) ||
  (a == 198 && (b == 18 || b == 19)) || (a == 198 && b == 51 && c == 100) ||
  (a == 203 && b == 0 && c == 113) || decide (240 ≤ a)

/-- Membership in 240.0.0.0/4, the CPython `IPv4Address.is_reserved` range. -/
def ipv4_is_reserved (a _b _c _d : Nat) : Bool := decide (240 ≤ a)

/-- Model of `ipaddress.ip_address` on a string: parse an IPv4 dotted quad or
raise `ValueError`.  `str()` of the parsed address reproduces the canonical
dotted quad. -/
def ip_address (s : String) : Except PyExc IpAddr :=
  match (py_split s ".").mapM parse_octet with
  | some [a, b, c, d] =>
    .ok ⟨toString a ++ "." ++ toString b ++ "." ++ toString c ++ "." ++ toString d,
      ipv4_is_private a b c d, ipv4_is_reserved a b c d⟩
  | _ => .error .valueError

/-! ### Model of the enrichment cache (`cachetools.LRUCache`)

main.py line 34 creates `LRUCache(maxsize=cache_size)`.  The cache is an
association list kept in most-recently-used-first order; a successful read
touches the entry (moves it to the front), and a write inserts at the front
and drops the least recently used entries beyond `maxsize`. -/

/-- Stored per-IP record: `{"status_code": ..., "response": ...}` where the
`response` field is the parsed upstream body or `None` (here `Json.null`). -/
structure CacheData where
  status_code : Nat
  response : Json
deriving Repr

/-- Cached entry: `{"data": ..., "last_updated": time.time()}`. -/
structure CacheEntry where
  data : CacheData
  last_updated : Nat
deriving Repr

/-- Cache contents, most recently used first. -/
abbrev Cache := List (String × CacheEntry)

/-- Removal of a key from the cache list. -/
def lru_erase (c : Cache) (k : String) : Cache :=
  List.filter (fun p => p.1 != k) c

/-- Model of `LRUCache.get` / `__getitem__`: return the entry when present
and mark it most recently used. -/
def lru_get (c : Cache) (k : String) : Option CacheEntry × Cache :=
  match List.lookup k c with
  | none => (none, c)
  | some v => (some v, (k, v) :: lru_erase c k)

/-- Model of `LRUCache.__setitem__`: insert or overwrite at the front, then
evict least recently used entries beyond `maxsize`. -/
def lru_put (c : Cache) (maxsize : Nat) (k : String) (v : CacheEntry) : Cache :=
  List.take maxsize ((k, v) :: lru_erase c k)

/-! ### Model of `HowBoutNo.__call__` (main.py lines 47-313) -/

/-- Relevant parts of the ASGI scope: `scope["type"]`, `scope["client"][0]`
and `scope.get("path")` (a request with no path key, where the source would
carry `None`, is not modelled). -/
structure Scope where
  type : String
  clientAddr : String
  path : String
deriving DecidableEq, Repr

/-- Oracle for the single upstream HTTP GET the request may make: status
code, parsed JSON body (`none` models an empty body, for which
`response.json()` raises), and the two rate-limit headers (header values are
strings; a missing header raises `KeyError` on access). -/
structure UpstreamResponse where
  status_code : Nat
  content : Option Json
  x_rl : Option String
  x_ttl : Option String
deriving Repr

/-- One log line written by `block_response_logger` (main.py lines 52-55),
kept structured: the client IP, the request path and the block-condition
label interpolated into the printed message. -/
structure LogEvent where
  ip : String
  path : String
  category : String
deriving DecidableEq, Repr

/-- What the middleware did with the request: forwarded it downstream, wrote
one HTTP response itself, or raised an uncaught Python exception. -/
inductive Outcome where
  | forwarded
  | sent (r : HttpResponse)
  | exc (e : PyExc)
deriving DecidableEq, Repr

/-- Result of one request before the logging flag is applied: the outcome,
the log events produced by `block_response_logger`, whether the upstream
enrichment GET was issued, and the updated mutable state (cache and
`self.reset`). -/
structure RawResult where
  outcome : Outcome
  events : List LogEvent
  madeUpstreamCall : Bool
  cache : Cache
  reset : Nat
deriving Repr

/-- The literal 503 body `json.dumps({"detail": "Service Unavailable"})`. -/
def service_unavailable_body : String :=
  json_dumps (.obj [("detail", .str "Service Unavailable")])

/-- The 503 response the middleware writes on every per-request error path
(main.py lines 66-78, 146-157, 166-177, 254-265). -/
def service_unavailable_503 : HttpResponse :=
  ⟨503, [("content-type", "application/json")], service_unavailable_body⟩

/-- Model of the staleness test on main.py line 115: a missing entry, or a
successful entry past `invalidate_success_after` with a nonzero TTL, or an
errored entry past `invalidate_error_after` with a nonzero TTL, forces a
refresh. -/
def needs_refresh (entry : Option CacheEntry) (sa ea now : Nat) : Bool :=
  match entry with
  | none => true
  | some e =>
    let isSucc := e.data.status_code == 200
    (isSucc && decide (now ≥ e.last_updated + sa) && (sa != 0)) ||
    (!isSucc && decide (now ≥ e.last_updated + ea) && (ea != 0))

/-- The block categories of the Decision Engine, in source order. -/
inductive Category where
  | inbound_bad_ip
  | outbound_bad_ip
  | continent
  | country
  | asn
  | rdns_hostname
  | hosting
  | proxy
deriving DecidableEq, Repr

/-- Source evaluation order of the block rules (main.py lines 296-311 and the
three parallel chains). -/
def ordered_categories : List Category :=
  [.inbound_bad_ip, .outbound_bad_ip, .continent, .country, .asn,
    .rdns_hostname, .hosting, .proxy]

/-- Log label interpolated for each category (main.py lines 297-311). -/
def cat_log : Category → String
  | .inbound_bad_ip => "inbound bad IP"
  | .outbound_bad_ip => "outbound bad IP"
  | .continent => "continent"
  | .country => "country"
  | .asn => "ASN"
  | .rdns_hostname => "RDNS hostname"
  | .hosting => "hosting"
  | .proxy => "proxy"

/-- Enrichment values the rule chain reads, as dynamic values: `continent`,
`country`, `asn`, `rdns_hostname`, `is_hosting`, `is_proxy` (main.py lines
188-193 and 246-251). -/
structure Vals where
  continent : Json
  country : Json
  asn : Json
  rdns_hostname : Json
  is_hosting : Json
  is_proxy : Json
deriving Repr

/-- Everything the rule chain reads from configuration and startup state. -/
structure RuleEnv where
  bad : block_bad_ip_
  inbound_list : List String
  outbound_list : List String
  bcont : block_continent_
  bctry : block_country_
  basn : block_asn_
  brdns : block_rdns_hostname_
  ahost : allow_hosting_
  aproxy : allow_proxy_
  excip : exception_ip_
  excpath : exception_path_
  resp : response_
deriving Repr

/-- The two exception conjuncts appended to every rule condition:
`ip not in self.config.exception_ip.exception_ip and
path not in self.config.exception_path` (the second operand is the pydantic
model object, see `py_in_exception_path_model`). -/
def not_excepted (env : RuleEnv) (ip path : String) : Bool :=
  (!(env.excip.exception_ip.contains ip)) && (!(py_in_exception_path_model path env.excpath))

/-- The guard of each block rule exactly as written in the source chains
(main.py lines 296-311): block condition plus the two exception conjuncts. -/
def rule_matches (env : RuleEnv) (vals : Vals) (ip path : String) : Category → Bool
  | .inbound_bad_ip =>
    env.bad.block_inbound_bad_ip && env.inbound_list.contains ip && not_excepted env ip path
  | .outbound_bad_ip =>
    env.bad.block_outbound_bad_ip && env.outbound_list.contains ip && not_excepted env ip path
  | .continent =>
    jmem_str vals.continent env.bcont.block_continent && not_excepted env ip path
  | .country =>
    jmem_str vals.country env.bctry.block_country && not_excepted env ip path
  | .asn =>
    jmem_int vals.asn env.basn.block_asn && not_excepted env ip path
  | .rdns_hostname =>
    jmem_str vals.rdns_hostname env.brdns.block_rdns_hostname && not_excepted env ip path
  | .hosting =>
    (!env.ahost.allow_hosting) && truthy vals.is_hosting && not_excepted env ip path
  | .proxy =>
    (!env.aproxy.allow_proxy) && truthy vals.is_proxy && not_excepted env ip path

/-- The rule chain of `__call__`.  When `response.all` is configured it is
rendered once up front and used for every category (main.py lines 267-287);
otherwise the six per-category responses are rendered up front, in source
order, and the two bad-IP rules render the `bad_ip` spec inside their branch
(main.py lines 289-313).  Rendering errors (invalid configured JSON bodies)
propagate as request-time exceptions. -/
def run_rules (env : RuleEnv) (vals : Vals) (ip path : String) :
    Except PyExc (Outcome × List LogEvent) :=
  match env.resp.all with
  | some allSpec =>
    match allSpec.get_response_obj with
    | .error e => .error e
    | .ok allObj =>
      if rule_matches env vals ip path .inbound_bad_ip then
        .ok (.sent allObj, [⟨ip, path, cat_log .inbound_bad_ip⟩])
      else if rule_matches env vals ip path .outbound_bad_ip then
        .ok (.sent allObj, [⟨ip, path, cat_log .outbound_bad_ip⟩])
      else if rule_matches env vals ip path .continent then
        .ok (.sent allObj, [⟨ip, path, cat_log .continent⟩])
      else if rule_matches env vals ip path .country then
        .ok (.sent allObj, [⟨ip, path, cat_log .country⟩])
      else if rule_matches env vals ip path .asn then
        .ok (.sent allObj, [⟨ip, path, cat_log .asn⟩])
      else if rule_matches env vals ip path .rdns_hostname then
        .ok (.sent allObj, [⟨ip, path, cat_log .rdns_hostname⟩])
      else if rule_matches env vals ip path .hosting then
        .ok (.sent allObj, [⟨ip, path, cat_log .hosting⟩])
      else if rule_matches env vals ip path .proxy then
        .ok (.sent allObj, [⟨ip, path, cat_log .proxy⟩])
      else .ok (.forwarded, [])
  | none =>
    match env.resp.continent.get_response_obj with
    | .error e => .error e
    | .ok contObj =>
    match env.resp.country.get_response_obj with
    | .error e => .error e
    | .ok ctryObj =>
    match env.resp.asn.get_response_obj with
    | .error e => .error e
    | .ok asnObj =>
    match env.resp.rdns_hostname.get_response_obj with
    | .error e => .error e
    | .ok rdnsObj =>
    match env.resp.hosting.get_response_obj with
    | .error e => .error e
    | .ok hostObj =>
    match env.resp.proxy.get_response_obj with
    | .error e => .error e
    | .ok proxObj =>
      if rule_matches env vals ip path .inbound_bad_ip then
        match env.resp.bad_ip.get_response_obj with
        | .error e => .error e
        | .ok badObj => .ok (.sent badObj, [⟨ip, path, cat_log .inbound_bad_ip⟩])
      else if rule_matches env vals ip path .outbound_bad_ip then
        match env.resp.bad_ip.get_response_obj with
        | .error e => .error e
        | .ok badObj => .ok (.sent badObj, [⟨ip, path, cat_log .outbound_bad_ip⟩])
      else if rule_matches env vals ip path .continent then
        .ok (.sent contObj, [⟨ip, path, cat_log .continent⟩])
      else if rule_matches env vals ip path .country then
        .ok (.sent ctryObj, [⟨ip, path, cat_log .country⟩])
      else if rule_matches env vals ip path .asn then
        .ok (.sent asnObj, [⟨ip, path, cat_log .asn⟩])
      else if rule_matches env vals ip path .rdns_hostname then
        .ok (.sent rdnsObj, [⟨ip, path, cat_log .rdns_hostname⟩])
      else if rule_matches env vals ip path .hosting then
        .ok (.sent hostObj, [⟨ip, path, cat_log .hosting⟩])
      else if rule_matches env vals ip path .proxy then
        .ok (.sent proxObj, [⟨ip, path, cat_log .proxy⟩])
      else .ok (.forwarded, [])

/-- Model of the ASN extraction
`int(x.split(" ")[0][2:])` (main.py lines 190 and 248), called only when the
raw `as` value is truthy.  Calling `.split` on a non-string raises (modelled
as `typeError`, standing for `AttributeError`). -/
def parse_as_field (asRaw : Json) : Except PyExc Json :=
  match asRaw with
  | .str s =>
    match pyInt (py_drop ((py_split s " ").headD "") 2) with
    | .ok n => .ok (.int n)
    | .error e => .error e
  | _ => .error .typeError

/-- Field extraction on the fetch path (main.py lines 188-193): subscripts in
source order; a falsy `as` value is kept as-is. -/
def extract_vals_fetch (rj : Json) : Except PyExc Vals :=
  match jget rj "continentCode" with
  | .error e => .error e
  | .ok cont =>
  match jget rj "countryCode" with
  | .error e => .error e
  | .ok ctry =>
  match jget rj "as" with
  | .error e => .error e
  | .ok asRaw =>
  match (if truthy asRaw then parse_as_field asRaw else .ok asRaw) with
  | .error e => .error e
  | .ok asnV =>
  match jget rj "reverse" with
  | .error e => .error e
  | .ok rev =>
  match jget rj "hosting" with
  | .error e => .error e
  | .ok host =>
  match jget rj "proxy" with
  | .error e => .error e
  | .ok prox => .ok ⟨cont, ctry, asnV, rev, host, prox⟩

/-- Field extraction on the cache-hit path (main.py lines 246-251): same
subscripts, but a falsy `as` value yields `None`.  Note these subscripts run
before the status check on line 253, so a cached errored record whose
`response` is `None` raises `TypeError` here. -/
def extract_vals_hit (resp : Json) : Except PyExc Vals :=
  match jget resp "continentCode" with
  | .error e => .error e
  | .ok cont =>
  match jget resp "countryCode" with
  | .error e => .error e
  | .ok ctry =>
  match jget resp "as" with
  | .error e => .error e
  | .ok asRaw =>
  match (if truthy asRaw then parse_as_field asRaw else .ok .null) with
  | .error e => .error e
  | .ok asnV =>
  match jget resp "reverse" with
  | .error e => .error e
  | .ok rev =>
  match jget resp "hosting" with
  | .error e => .error e
  | .ok host =>
  match jget resp "proxy" with
  | .error e => .error e
  | .ok prox => .ok ⟨cont, ctry, asnV, rev, host, prox⟩

/-- The refresh branch (main.py lines 115-241): rate-limit gate, upstream
GET, error caching, rate-limit header handling, fail-status 503, success
caching, extraction and the rule chain.  `cache1` is the cache after the
initial `get`, `reset` is `self.reset`. -/
def refresh_path (env : RuleEnv) (cacheCfg : cache_) (ip path : String)
    (cache1 : Cache) (reset now : Nat) (up : UpstreamResponse) : RawResult :=
  if now < reset then
    -- rate_limited: 503 with a Retry-After header holding str(self.reset)
    ⟨.sent ⟨503, [("content-type", "application/json"), ("Retry-After", toString reset)],
        service_unavailable_body⟩, [], false, cache1, reset⟩
  else if up.status_code != 200 then
    -- non-200: cache the errored record, then 503 (main.py lines 136-157)
    let c2 := lru_put cache1 cacheCfg.size ip
      ⟨⟨up.status_code, (up.content.getD .null)⟩, now⟩
    ⟨.sent service_unavailable_503, [], true, c2, reset⟩
  else
    match up.x_rl with
    | none => ⟨.exc (.keyError "X-Rl"), [], true, cache1, reset⟩
    | some xrl =>
      if xrl = "0" then
        -- main.py line 161: `self.reset = time.time() + response.headers["X-Ttl"]`
        -- adds a float and a str, raising TypeError before any state change
        match up.x_ttl with
        | none => ⟨.exc (.keyError "X-Ttl"), [], true, cache1, reset⟩
        | some _ => ⟨.exc .typeError, [], true, cache1, reset⟩
      else
        match up.content with
        | none => ⟨.exc .jsonDecodeError, [], true, cache1, reset⟩
        | some rj =>
          match jget rj "status" with
          | .error e => ⟨.exc e, [], true, cache1, reset⟩
          | .ok st =>
            if !(jeq_str st "success") then
              -- main.py lines 165-177: 503 and return, with no cache write
              ⟨.sent service_unavailable_503, [], true, cache1, reset⟩
            else
              -- main.py lines 179-186: cache the successful record
              let c2 := lru_put cache1 cacheCfg.size ip ⟨⟨up.status_code, rj⟩, now⟩
              match extract_vals_fetch rj with
              | .error e => ⟨.exc e, [], true, c2, reset⟩
              | .ok vals =>
                match run_rules env vals ip path with
                | .error e => ⟨.exc e, [], true, c2, reset⟩
                | .ok (o, evs) => ⟨o, evs, true, c2, reset⟩

/-- The cache-hit branch (main.py lines 244-313): re-read the entry, extract
fields (which can raise, see `extract_vals_hit`), the status check on line
253 (the second operand of its `or` only evaluated when the status code is
200), then the rule chain. -/
def hit_path (env : RuleEnv) (ip path : String) (entry : CacheEntry)
    (cache2 : Cache) (reset : Nat) : RawResult :=
  match extract_vals_hit entry.data.response with
  | .error e => ⟨.exc e, [], false, cache2, reset⟩
  | .ok vals =>
    if entry.data.status_code != 200 then
      ⟨.sent service_unavailable_503, [], false, cache2, reset⟩
    else
      match jget entry.data.response "status" with
      | .error e => ⟨.exc e, [], false, cache2, reset⟩
      | .ok st =>
        if !(jeq_str st "success") then
          ⟨.sent service_unavailable_503, [], false, cache2, reset⟩
        else
          match run_rules env vals ip path with
          | .error e => ⟨.exc e, [], false, cache2, reset⟩
          | .ok (o, evs) => ⟨o, evs, false, cache2, reset⟩

/-- The body of `__call__` once the request is known to be HTTP and a config
is loaded (main.py lines 57-313), over the configuration pieces the request
handling reads.  The `disable_logging` flag is deliberately not an argument:
the source reads it only inside `block_response_logger`, which is applied by
`call` below. -/
def handle (bip : block_ip_) (bbad : block_bad_ip_) (bcont : block_continent_)
    (bctry : block_country_) (basn : block_asn_) (brdns : block_rdns_hostname_)
    (ahost : allow_hosting_) (aproxy : allow_proxy_) (excip : exception_ip_)
    (excpath : exception_path_) (resp : response_) (cacheCfg : cache_)
    (inb outb : List String) (cache : Cache) (reset : Nat)
    (clientAddr path : String) (now : Nat) (up : UpstreamResponse) : RawResult :=
  match ip_address clientAddr with
  | .error e => ⟨.exc e, [], false, cache, reset⟩
  | .ok ipA =>
    let ip := ipA.canonical
    let env : RuleEnv := ⟨bbad, inb, outb, bcont, bctry, basn, brdns, ahost, aproxy,
      excip, excpath, resp⟩
    if py_in_block_ip_model ip bip then
      -- main.py lines 62-64 (response.all if set, else response.ip)
      match (match resp.all with
             | some a => a.get_response_obj
             | none => resp.ip.get_response_obj) with
      | .error e => ⟨.exc e, [], false, cache, reset⟩
      | .ok r => ⟨.sent r, [], false, cache, reset⟩
    else if ipA.is_private || ipA.is_reserved then
      -- main.py lines 66-78
      ⟨.sent service_unavailable_503, [], false, cache, reset⟩
    else
      let got := lru_get cache ip
      if needs_refresh got.1 cacheCfg.invalidate_success_after
          cacheCfg.invalidate_error_after now then
        refresh_path env cacheCfg ip path got.2 reset now up
      else
        match got.1 with
        | none =>
          -- unreachable: a missing entry always needs a refresh
          ⟨.exc (.keyError ip), [], false, got.2, reset⟩
        | some entry =>
          -- main.py line 244 re-reads `self.cache[ip]`, touching the entry
          hit_path env ip path entry (lru_get got.2 ip).2 reset

/-- Middleware instance state: `self.config`, `self.cache`, the two bad-IP
lists fetched at startup, and `self.reset` (initially 0). -/
structure HowBoutNo where
  config : Option config_
  cache : Cache
  inbound_bad_ip_list : List String
  outbound_bad_ip_list : List String
  reset : Nat

/-- Observable result of one request: outcome, printed log lines (empty when
`disable_logging` is set), and whether the upstream GET was issued. -/
structure CallResult where
  outcome : Outcome
  log : List LogEvent
  madeUpstreamCall : Bool
deriving Repr

/-- Model of `HowBoutNo.__call__`: non-HTTP scopes and the bare-config case
forward untouched (main.py lines 49-50); otherwise the request is handled and
`block_response_logger` prints each log line unless `disable_logging` is set
(main.py lines 52-55). -/
def call (self : HowBoutNo) (scope : Scope) (now : Nat) (up : UpstreamResponse) :
    CallResult × HowBoutNo :=
  if scope.type != "http" || self.config.isNone then (⟨.forwarded, [], false⟩, self)
  else
    match self.config with
    | none => (⟨.forwarded, [], false⟩, self)
    | some cfg =>
      let r := handle cfg.block_ip cfg.block_bad_ip cfg.block_continent cfg.block_country
        cfg.block_asn cfg.block_rdns_hostname cfg.allow_hosting cfg.allow_proxy
        cfg.exception_ip cfg.exception_path cfg.response cfg.cache
        self.inbound_bad_ip_list self.outbound_bad_ip_list self.cache self.reset
        scope.clientAddr scope.path now up
      (⟨r.outcome, if cfg.disable_logging.disable_logging then [] else r.events,
          r.madeUpstreamCall⟩,
        { self with cache := r.cache, reset := r.reset })

/-! ### Concrete fixtures used by the claim theorems -/

/-- Successful ip-api payload with the given field values. -/
def payload_ok (continent country asfield reverse : String) (hosting proxy : Bool) : Json :=
  .obj [("status", .str "success"), ("continentCode", .str continent),
    ("countryCode", .str country), ("as", .str asfield), ("reverse", .str reverse),
    ("hosting", .bool hosting), ("proxy", .bool proxy)]

/-- Upstream oracle: 200 success payload for a benign public IP, quota not
exhausted. -/
def up_benign : UpstreamResponse :=
  ⟨200, some (payload_ok "NA" "US" "AS19281 Quad9" "dns9.quad9.net" false false),
    some "44", some "60"⟩

/-- Configuration blocking the raw IP 9.9.9.9 (claim C1 scenario). -/
def cfg_blockip : config_ := { default_config_ with block_ip := ⟨["9.9.9.9"]⟩ }

/-- Middleware freshly started with `cfg_blockip`. -/
def self_blockip : HowBoutNo := ⟨some cfg_blockip, [], [], [], 0⟩

/-- Request from 9.9.9.9 to the root path. -/
def scope_99 : Scope := ⟨"http", "9.9.9.9", "/"⟩

/-- Configuration blocking country CN with exception path /health (claim C2
scenario, spec scenario 2). -/
def cfg_cn_health : config_ :=
  { default_config_ with block_country := ⟨["CN"]⟩, exception_path := ⟨["/health"]⟩ }

/-- Middleware freshly started with `cfg_cn_health`. -/
def self_cn_health : HowBoutNo := ⟨some cfg_cn_health, [], [], [], 0⟩

/-- Request from 1.2.3.4 to the configured exception path. -/
def scope_health : Scope := ⟨"http", "1.2.3.4", "/health"⟩

/-- Upstream oracle: 200 success payload locating the client in CN. -/
def up_cn : UpstreamResponse :=
  ⟨200, some (payload_ok "AS" "CN" "AS4134 Chinanet" "host.example.cn" false false),
    some "44", some "60"⟩

/-- Middleware freshly started with the default configuration. -/
def self_default : HowBoutNo := ⟨some default_config_, [], [], [], 0⟩

/-- Request from 8.8.8.8 to the root path. -/
def scope_88 : Scope := ⟨"http", "8.8.8.8", "/"⟩

/-- Upstream oracle: HTTP 200 whose payload reports `status: fail` (claim C3
scenario, spec scenario 5). -/
def up_fail : UpstreamResponse :=
  ⟨200, some (.obj [("status", .str "fail")]), some "44", some "60"⟩

/-- Upstream oracle: quota exhausted, `X-Rl: 0`, `X-Ttl: 60` (claim C4
scenario, spec scenario 4). -/
def up_rl0 : UpstreamResponse :=
  ⟨200, some (payload_ok "NA" "US" "AS19281 Quad9" "dns9.quad9.net" false false),
    some "0", some "60"⟩

/-- Upstream oracle: transport-level HTTP 500 with an empty body (claim C5
scenario: creates an errored cache record whose stored response is None). -/
def up_err500 : UpstreamResponse := ⟨500, none, some "44", some "60"⟩

/-- The rendered default Forbidden response. -/
def forbidden_403 : HttpResponse :=
  ⟨403, [("content-type", "application/json")], "\x7b\"detail\": \"Forbidden\"\x7d"⟩

/-- Rule environment assembled from a config and startup lists, as `handle`
does. -/
def rule_env_of (cfg : config_) (inb outb : List String) : RuleEnv :=
  ⟨cfg.block_bad_ip, inb, outb, cfg.block_continent, cfg.block_country, cfg.block_asn,
    cfg.block_rdns_hostname, cfg.allow_hosting, cfg.allow_proxy, cfg.exception_ip,
    cfg.exception_path, cfg.response⟩

/-- Sets only the logging flag of a configuration. -/
def set_disable_logging (cfg : config_) (d : Bool) : config_ :=
  { cfg with disable_logging := ⟨d⟩ }

/-- Sets only the logging flag inside a middleware state. -/
def with_disable_logging (self : HowBoutNo) (d : Bool) : HowBoutNo :=
  { self with config := self.config.map (fun c => set_disable_logging c d) }

/-- Response spec whose body is not valid JSON while `return_as` is JSON
(claim C7 scenario). -/
def bad_json_spec : response_model_ := ⟨"not json", 403, "JSON"⟩

/-- The response spec the source selects for a denial category: the `all`
override when present, otherwise the per-category spec, with both bad-IP
categories mapped to the `bad_ip` spec (main.py lines 195-239, 267-311). -/
def spec_for (resp : response_) (c : Category) : response_model_ :=
  match resp.all with
  | some a => a
  | none =>
    match c with
    | .inbound_bad_ip => resp.bad_ip
    | .outbound_bad_ip => resp.bad_ip
    | .continent => resp.continent
    | .country => resp.country
    | .asn => resp.asn
    | .rdns_hostname => resp.rdns_hostname
    | .hosting => resp.hosting
    | .proxy => resp.proxy

/-- Enrichment values as extracted from the `up_cn` payload. -/
def vals_cn : Vals :=
  ⟨.str "AS", .str "CN", .int 4134, .str "host.example.cn", .bool false, .bool false⟩

/-- Configuration whose error TTL is zero (claim C9 boundary). -/
def cfg_ttl0 : config_ := { default_config_ with cache := ⟨512, 604800, 0⟩ }

/-- Errored cache record a failed upstream call leaves behind: status 500,
response `None`. -/
def entry_err500 : CacheEntry := ⟨⟨500, .null⟩, 1000⟩

/-- Middleware with `cfg_ttl0` and a cached errored record for 9.9.9.9. -/
def self_ttl0 : HowBoutNo := ⟨some cfg_ttl0, [("9.9.9.9", entry_err500)], [], [], 0⟩

/-- Request scope with an unparseable client address, for the C6 witness. -/
def scope_abc : Scope := ⟨"http", "abc", "/"⟩

/-! ### Helper lemmas -/

/-- The membership test of main.py line 62 never succeeds: a string is never
equal to a pydantic iteration pair. -/
theorem py_in_block_ip_model_false (ip : String) (m : block_ip_) :
    py_in_block_ip_model ip m = false := by
  simp [py_in_block_ip_model, py_str_eq_pair]

/-- The membership test `path in self.config.exception_path` of the rule
chains never succeeds, for the same reason. -/
theorem py_in_exception_path_model_false (path : String) (m : exception_path_) :
    py_in_exception_path_model path m = false := by
  simp [py_in_exception_path_model, py_str_eq_pair]

/-- A cache entry whose applicable TTL is zero never triggers a refresh. -/
theorem needs_refresh_ttl_zero (e : CacheEntry) (sa ea now : Nat)
    (h : (e.data.status_code = 200 ∧ sa = 0) ∨ (e.data.status_code ≠ 200 ∧ ea = 0)) :
    needs_refresh (some e) sa ea now = false := by
  unfold needs_refresh
  rcases h with ⟨h1, h2⟩ | ⟨h1, h2⟩ <;> subst h2 <;> simp [h1]

/-- The cache-hit branch never issues an upstream call. -/
theorem hit_path_no_upstream (env : RuleEnv) (ip path : String) (entry : CacheEntry)
    (c : Cache) (r : Nat) : (hit_path env ip path entry c r).madeUpstreamCall = false := by
  unfold hit_path
  rcases extract_vals_hit entry.data.response with e | vals
  · rfl
  · simp only []
    by_cases h1 : (entry.data.status_code != 200) = true
    · simp [h1]
    · simp only [h1]
      rcases jget entry.data.response "status" with e | st
      · simp [h1]
      · by_cases h2 : (!jeq_str st "success") = true
        · simp [h1, h2]
        · rcases hrr : run_rules env vals ip path with e | p
          · simp [h1, h2, hrr]
          · simp [h1, h2, hrr]

/-! ### Claim theorems -/

/-- C1: the claim says a request from an IP in `block_ip` is denied with the
configured ip (or all) spec, with no upstream call and no cache insertion.
The code tests `ip in self.config.block_ip` against the pydantic model object
(main.py line 62), which is always false, so with 9.9.9.9 configured in
`block_ip` a request from 9.9.9.9 is not short-circuited: the upstream
enrichment call is made, the record is cached for that IP, and the request is
forwarded downstream. -/
theorem c1_block_ip_never_blocks :
    cfg_blockip.block_ip.block_ip = ["9.9.9.9"] ∧
    scope_99.clientAddr = "9.9.9.9" ∧
    (call self_blockip scope_99 1000 up_benign).1.outcome = .forwarded ∧
    (call self_blockip scope_99 1000 up_benign).1.madeUpstreamCall = true ∧
    (call self_blockip scope_99 1000 up_benign).2.cache =
      [("9.9.9.9", ⟨⟨200, payload_ok "NA" "US" "AS19281 Quad9" "dns9.quad9.net" false false⟩, 1000⟩)] :=
  ⟨rfl, rfl, by rfl, by rfl, by rfl⟩

/-- C2: the claim says `path ∈ exception_path` suppresses every rule.  The
code tests `path not in self.config.exception_path` against the pydantic
model object (main.py lines 198-311), which never holds any path, so the
exception list is inert: with country CN blocked and /health configured as an
exception path, a request from a CN client to /health is still denied by the
country rule (the spec expects it forwarded). -/
theorem c2_exception_path_never_suppresses :
    cfg_cn_health.exception_path.exception_path = ["/health"] ∧
    scope_health.path = "/health" ∧
    (call self_cn_health scope_health 1000 up_cn).1.outcome = .sent forbidden_403 ∧
    (call self_cn_health scope_health 1000 up_cn).1.log =
      [⟨"1.2.3.4", "/health", "country"⟩] :=
  ⟨rfl, rfl, by rfl, by rfl⟩

/-- C3: the claim says an HTTP 200 upstream reply with `status: fail` is
cached as a status 200 record, so later requests are answered 503 from the
cache.  The code answers 503 but returns before the cache write (main.py
lines 165-177 precede the write on line 179), so nothing is cached and an
immediately following request from the same IP issues another upstream
call. -/
theorem c3_fail_status_not_cached :
    (call self_default scope_88 1000 up_fail).1.outcome = .sent service_unavailable_503 ∧
    (call self_default scope_88 1000 up_fail).1.madeUpstreamCall = true ∧
    (call self_default scope_88 1000 up_fail).2.cache = [] ∧
    (call (call self_default scope_88 1000 up_fail).2 scope_88 1001 up_fail).1.madeUpstreamCall
      = true :=
  ⟨by rfl, by rfl, by rfl, by rfl⟩

/-- C4: the claim says `X-Rl: 0` makes the middleware set
`reset_at := now + X-Ttl` and refuse upstream calls until then.  The code
adds the float `time.time()` to the header string (main.py line 161), which
raises `TypeError`; `self.reset` is never updated (it keeps its initial 0,
and this is its only assignment), so the rate-limit refusal branch is
unreachable and the request that received `X-Rl: 0` dies with an exception. -/
theorem c4_rate_limit_header_crashes :
    up_rl0.x_rl = some "0" ∧ up_rl0.x_ttl = some "60" ∧
    (call self_default scope_88 1000 up_rl0).1.outcome = .exc .typeError ∧
    (call self_default scope_88 1000 up_rl0).2.reset = 0 ∧
    (call self_default scope_88 1000 up_rl0).2.cache = [] :=
  ⟨rfl, rfl, by rfl, by rfl, by rfl⟩

/-- C5: the claim says a fresh errored cache entry yields 503 with no
upstream call.  The code does skip the upstream call, but it subscripts
`cache["data"]["response"]["continentCode"]` (main.py line 246) before the
status check on line 253; an errored record stores `response: None` (written
by the code itself for a non-200 reply with empty body, line 140), so the
subscript raises `TypeError` instead of answering 503.  The first call below
creates the errored entry; the second call, within `invalidate_error_after`,
crashes. -/
theorem c5_fresh_error_entry_crashes :
    (call self_default scope_88 1000 up_err500).1.outcome = .sent service_unavailable_503 ∧
    (call self_default scope_88 1000 up_err500).2.cache = [("8.8.8.8", ⟨⟨500, .null⟩, 1000⟩)] ∧
    (call (call self_default scope_88 1000 up_err500).2 scope_88 1100 up_benign).1.outcome
      = .exc .typeError ∧
    (call (call self_default scope_88 1000 up_err500).2 scope_88 1100 up_benign).1.madeUpstreamCall
      = false :=
  ⟨by rfl, by rfl, by rfl, by rfl⟩

/-- C6 counterexample: the claim says an unparseable client address is
answered with a 503 response; on the concrete address 999.999.999.999 the
middleware instead ends with an uncaught `ValueError` (main.py line 58 has no
handler), so no response is written by the middleware. -/
theorem c6_malformed_ip_counterexample :
    (call self_default ⟨"http", "999.999.999.999", "/"⟩ 0 up_benign).1.outcome
      = .exc .valueError := by
  rfl

/-- C6 amended: when the client address does not parse, `ip_address` raises
and the exception propagates out of `__call__` uncaught; the middleware
writes no response (in particular no 503) and makes no upstream call. -/
theorem c6_malformed_ip_raises (self : HowBoutNo) (cfg : config_) (scope : Scope)
    (e : PyExc) (now : Nat) (up : UpstreamResponse)
    (hc : self.config = some cfg) (ht : scope.type = "http")
    (hip : ip_address scope.clientAddr = .error e) :
    (call self scope now up).1.outcome = .exc e ∧
    (call self scope now up).1.madeUpstreamCall = false := by
  unfold call
  simp only [hc, ht]
  simp only [handle, hip]
  simp

/-- C6 witness: the amended statement applied to the concrete client address
"abc". -/
theorem c6_malformed_ip_raises_witness :
    (call self_default scope_abc 5 up_benign).1.outcome = .exc .valueError ∧
    (call self_default scope_abc 5 up_benign).1.madeUpstreamCall = false :=
  c6_malformed_ip_raises self_default default_config_ scope_abc .valueError 5 up_benign
    rfl rfl (by rfl)

/-- C7 counterexample: the claim says an invalid JSON body in a JSON response
spec fails configuration loading.  The concrete spec with body "not json"
passes the load-time validator unchanged (`validate_return_type` inspects
only `return_as`), and only `get_response_obj`, which runs at request time,
raises `JSONDecodeError`. -/
theorem c7_json_checked_at_request_time :
    bad_json_spec.validate_return_type = .ok bad_json_spec ∧
    bad_json_spec.get_response_obj = .error .jsonDecodeError :=
  ⟨by rfl, by rfl⟩

/-- C7 amended: any JSON response spec whose body is not valid JSON passes
load-time validation unchanged; the parse failure surfaces only when
`get_response_obj` builds the response object at request time. -/
theorem c7_json_parse_deferred (m : response_model_)
    (hra : m.return_as = "JSON") (hj : json_loads m.response = none) :
    m.validate_return_type = .ok m ∧ m.get_response_obj = .error .jsonDecodeError := by
  obtain ⟨r, sc, ra⟩ := m
  simp only at hra
  subst hra
  constructor
  · rfl
  · simp only [response_model_.get_response_obj] at hj ⊢
    simp [hj]
  

/-- C7 witness: the amended statement applied to `bad_json_spec`. -/
theorem c7_json_parse_deferred_witness :
    bad_json_spec.validate_return_type = .ok bad_json_spec ∧
    bad_json_spec.get_response_obj = .error .jsonDecodeError :=
  c7_json_parse_deferred bad_json_spec rfl (by rfl)

/-- C8: given a successful populated record, the rule chain is first-match-
wins over the fixed order inbound_bad_ip, outbound_bad_ip, continent,
country, asn, rdns_hostname, hosting, proxy; the denial uses the spec
selected for the matching category (the `all` override when configured,
otherwise the per-category spec, with both bad-IP rules mapped to `bad_ip`),
and when no rule matches the request is forwarded.  The hypothesis `hR` says
every selectable spec renders (the configured bodies are valid). -/
theorem c8_first_match_wins (env : RuleEnv) (vals : Vals) (ip path : String)
    (R : Category → HttpResponse)
    (hR : ∀ c, (spec_for env.resp c).get_response_obj = .ok (R c)) :
    run_rules env vals ip path =
      .ok (match ordered_categories.find? (rule_matches env vals ip path) with
        | none => (Outcome.forwarded, [])
        | some c => (Outcome.sent (R c), [⟨ip, path, cat_log c⟩])) := by
  unfold run_rules
  cases hall : env.resp.all with
  | some a =>
    dsimp only
    simp only [spec_for, hall] at hR
    have req : ∀ c, R c = R .inbound_bad_ip := by
      intro c
      have h1 := (hR .inbound_bad_ip).symm.trans (hR c)
      exact (Except.ok.injEq _ _).mp h1 |>.symm
    rw [hR .inbound_bad_ip]
    simp only [ordered_categories, List.find?]
    by_cases h1 : rule_matches env vals ip path .inbound_bad_ip
    · simp [h1]
    · simp only [h1, Bool.false_eq_true, if_false, cond_eq_if]
      by_cases h2 : rule_matches env vals ip path .outbound_bad_ip
      · simp [h1, h2, req .outbound_bad_ip]
      · by_cases h3 : rule_matches env vals ip path .continent
        · simp [h1, h2, h3, req .continent]
        · by_cases h4 : rule_matches env vals ip path .country
          · simp [h1, h2, h3, h4, req .country]
          · by_cases h5 : rule_matches env vals ip path .asn
            · simp [h1, h2, h3, h4, h5, req .asn]
            · by_cases h6 : rule_matches env vals ip path .rdns_hostname
              · simp [h1, h2, h3, h4, h5, h6, req .rdns_hostname]
              · by_cases h7 : rule_matches env vals ip path .hosting
                · simp [h1, h2, h3, h4, h5, h6, h7, req .hosting]
                · by_cases h8 : rule_matches env vals ip path .proxy
                  · simp [h1, h2, h3, h4, h5, h6, h7, h8, req .proxy]
                  · simp [h1, h2, h3, h4, h5, h6, h7, h8]
  | none =>
    dsimp only
    simp only [spec_for, hall] at hR
    have hbad : R .outbound_bad_ip = R .inbound_bad_ip := by
      have h1 := (hR .inbound_bad_ip).symm.trans (hR .outbound_bad_ip)
      exact (Except.ok.injEq _ _).mp h1 |>.symm
    rw [hR .continent, hR .country, hR .asn, hR .rdns_hostname, hR .hosting, hR .proxy,
      hR .inbound_bad_ip]
    simp only [ordered_categories, List.find?]
    by_cases h1 : rule_matches env vals ip path .inbound_bad_ip
    · simp [h1]
    · by_cases h2 : rule_matches env vals ip path .outbound_bad_ip
      · simp [h1, h2, hbad]
      · by_cases h3 : rule_matches env vals ip path .continent
        · simp [h1, h2, h3]
        · by_cases h4 : rule_matches env vals ip path .country
          · simp [h1, h2, h3, h4]
          · by_cases h5 : rule_matches env vals ip path .asn
            · simp [h1, h2, h3, h4, h5]
            · by_cases h6 : rule_matches env vals ip path .rdns_hostname
              · simp [h1, h2, h3, h4, h5, h6]
              · by_cases h7 : rule_matches env vals ip path .hosting
                · simp [h1, h2, h3, h4, h5, h6, h7]
                · by_cases h8 : rule_matches env vals ip path .proxy
                  · simp [h1, h2, h3, h4, h5, h6, h7, h8]
                  · simp [h1, h2, h3, h4, h5, h6, h7, h8]

/-- C8 witness: with country CN blocked and none of the earlier rules
matching, the chain denies with the country spec (the default Forbidden
response) and logs the country category. -/
theorem c8_first_match_wins_witness :
    run_rules (rule_env_of cfg_cn_health [] []) vals_cn "1.2.3.4" "/data" =
      .ok (.sent forbidden_403, [⟨"1.2.3.4", "/data", "country"⟩]) := by
  have h := c8_first_match_wins (rule_env_of cfg_cn_health [] []) vals_cn "1.2.3.4" "/data"
    (fun _ => forbidden_403) (by intro c; cases c <;> rfl)
  exact h.trans (by rfl)

/-- C9: a cached entry whose applicable TTL (`invalidate_success_after` for a
status 200 entry, `invalidate_error_after` otherwise) is zero is treated as
fresh at every later time, so a request for that IP never issues the upstream
refresh call while the entry is in the cache. -/
theorem c9_ttl_zero_never_refreshes (self : HowBoutNo) (cfg : config_) (scope : Scope)
    (ipA : IpAddr) (e : CacheEntry) (now : Nat) (up : UpstreamResponse)
    (hc : self.config = some cfg) (ht : scope.type = "http")
    (hip : ip_address scope.clientAddr = .ok ipA)
    (hpriv : ipA.is_private = false) (hres : ipA.is_reserved = false)
    (hent : List.lookup ipA.canonical self.cache = some e)
    (httl : (e.data.status_code = 200 ∧ cfg.cache.invalidate_success_after = 0) ∨
      (e.data.status_code ≠ 200 ∧ cfg.cache.invalidate_error_after = 0)) :
    (call self scope now up).1.madeUpstreamCall = false := by
  unfold call
  simp only [hc, ht]
  simp only [handle, hip]
  rw [py_in_block_ip_model_false]
  simp only [hpriv, hres, Bool.or_self, if_false, lru_get, hent]
  rw [needs_refresh_ttl_zero e _ _ now httl]
  simp [hit_path_no_upstream]

/-- C9 witness: with `invalidate_error_after = 0` and a cached errored
record, a much later request makes no upstream call. -/
theorem c9_ttl_zero_never_refreshes_witness :
    (call self_ttl0 scope_99 999999999 up_benign).1.madeUpstreamCall = false :=
  c9_ttl_zero_never_refreshes self_ttl0 cfg_ttl0 scope_99 ⟨"9.9.9.9", false, false⟩
    entry_err500 999999999 up_benign rfl rfl (by rfl) rfl rfl (by rfl)
    (Or.inr ⟨by decide, rfl⟩)

/-- C10: the emitted response, the upstream-call behavior and the resulting
mutable state (cache and rate state) are identical whichever value
`disable_logging` has; the flag only suppresses the printed log line. -/
theorem c10_logging_flag_invisible (self : HowBoutNo) (d : Bool) (scope : Scope)
    (now : Nat) (up : UpstreamResponse) :
    (call (with_disable_logging self d) scope now up).1.outcome
        = (call self scope now up).1.outcome ∧
    (call (with_disable_logging self d) scope now up).1.madeUpstreamCall
        = (call self scope now up).1.madeUpstreamCall ∧
    (call (with_disable_logging self d) scope now up).2.cache
        = (call self scope now up).2.cache ∧
    (call (with_disable_logging self d) scope now up).2.reset
        = (call self scope now up).2.reset := by
  cases hcfg : self.config with
  | none => simp [call, with_disable_logging, hcfg]
  | some cfg =>
    by_cases hty : (scope.type != "http") = true
    · simp [call, with_disable_logging, hcfg, hty]
    · simp [call, with_disable_logging, set_disable_logging, hcfg, hty]

end HowAboutNo
